import Mathlib

/-
  Verification of the scraping-and-reconciliation engine of the
  apsystems-ecu3-zonnepanelen integration (`ZonnepanelenDataCoordinator`
  in `__init__.py`).

  Python strings are modelled as lists of characters (`Str`).  Every text
  operation the source uses — `re.split` on a literal token, `str.split`
  with and without a separator and with a maxsplit, `str.lstrip(' ')`,
  `str.replace("-", "0", 1)`, slicing `[1:15]` — is embedded as a
  structurally recursive Lean function so that concrete runs reduce in the
  kernel.  Exceptions (`IndexError` from `[...]` indexing) are modelled
  with `Option`; the `try`/`except` blocks of the source become explicit
  control flow on `Option` results.
-/

set_option maxRecDepth 10000

namespace Zonnepanelen

/-- Python strings, modelled as character lists. -/
abbrev Str := List Char

/-- Coerce a Lean string literal to the character-list model. -/
def chars (s : String) : Str := s.data

/-- Python whitespace predicate used by `str.split()` with no argument. -/
def isPyWs (c : Char) : Bool :=
  c == ' ' || c == '\t' || c == '\n' || c == '\x0b' || c == '\x0c' || c == '\r'

/-- Does `pat` occur at the head of `s`? -/
def matchesAt : Str → Str → Bool
  | [], _ => true
  | _ :: _, [] => false
  | p :: ps, c :: cs => p == c && matchesAt ps cs

/-- Worker for `splitOnStr`: `fuel` bounds the recursion (any
`fuel ≥ s.length` gives the splitting of `s`); `acc` holds the current
segment reversed. -/
def splitOnFuel (sep : Str) : Nat → Str → Str → List Str
  | _, [], acc => [acc.reverse]
  | 0, s, acc => [acc.reverse ++ s]
  | fuel + 1, c :: cs, acc =>
    if matchesAt sep (c :: cs) then
      acc.reverse :: splitOnFuel sep fuel (List.drop (sep.length - 1) cs) []
    else
      splitOnFuel sep fuel cs (c :: acc)

/-- Python `s.split(sep)` / `re.split(sep, s)` for a literal separator with
no regex metacharacters: leftmost non-overlapping splitting, keeping empty
segments. -/
def splitOnStr (sep s : Str) : List Str :=
  if sep.isEmpty then [s] else splitOnFuel sep s.length s []

/-- Python `s.split(sep, 2)`: at most two splits, the remainder is kept
joined. -/
def pySplit2 (sep s : Str) : List Str :=
  let parts := splitOnStr sep s
  if parts.length ≤ 3 then parts
  else parts.take 2 ++ [List.intercalate sep (parts.drop 2)]

/-- Worker for `pyWsSplit`: split at every whitespace character, keeping
empty segments. -/
def splitAtWs : Str → Str → List Str
  | [], acc => [acc.reverse]
  | c :: cs, acc =>
    if isPyWs c then acc.reverse :: splitAtWs cs []
    else splitAtWs cs (c :: acc)

/-- Python `s.split()` with no argument: split on whitespace runs and drop
empty tokens. -/
def pyWsSplit (s : Str) : List Str :=
  (splitAtWs s []).filter (fun t => !t.isEmpty)

/-- Python `s.lstrip(' ')`: drop leading space characters (spaces only). -/
def lstripSpace (s : Str) : Str := s.dropWhile (fun c => c == ' ')

/-- Python `s.replace("-", "0", 1)`: replace the first dash, if any, by a
zero character. -/
def replaceFirstDash : Str → Str
  | [] => []
  | c :: cs => if c = '-' then '0' :: cs else c :: replaceFirstDash cs

/-- Python `s[1:15]`: the characters at positions 1 through 14 inclusive
(clamped when the string is shorter). -/
def pySlice1to15 (s : Str) : Str := (s.drop 1).take 14

/-!  ## Detail page (`/index.php/realtimedata`)

The source splits the page on `'<tr '`, drops the pre-table segment, and
for each remaining row splits on `'<td'`.  Rows with fewer than two
segments are skipped.  `fields[1][1:15]` is the panel identifier; the
value cells are decoded by
`fields[i].split(">", 2)[1].lstrip(' ').split()[0].replace("-", "0", 1)`,
whose `IndexError`s we model with `Option`.
-/

/-- `cell.split(">", 2)[1].lstrip(' ').split()[0]` — `none` models an
`IndexError` (no `'>'` in the cell, or nothing but whitespace after it). -/
def extractToken (cell : Str) : Option Str :=
  match (pySplit2 (chars ">") cell).get? 1 with
  | none => none
  | some t => (pyWsSplit (lstripSpace t)).get? 0

/-- The full value pipeline for one data cell, ending with
`.replace("-", "0", 1)`. -/
def extractField (cell : Str) : Option Str :=
  (extractToken cell).map replaceFirstDash

/-- `fields[i].split(">", 2)[1].lstrip(' ').split()[0].replace("-","0",1)`:
`none` models an `IndexError` raised either by `fields[i]` itself or
inside the cell pipeline. -/
def extractAt (fields : List Str) (i : Nat) : Option Str :=
  (fields.get? i).bind extractField

/-- One parsed panel record: the four possible sensor keys of the source
dictionary, `none` when the key was never assigned. -/
structure PanelRecord where
  power : Option Str
  freq : Option Str
  volt : Option Str
  temp : Option Str
deriving Repr, DecidableEq

/-- The `len(fields) < 7` branch of the row parser, with the source's
exception semantics: the first failing cell aborts the remaining
assignments of the row, and the handler then fills `power`/`volt` with
`"0"` when missing. -/
def parseShortRow (fields : List Str) : PanelRecord :=
  match extractAt fields 2 with
  | none => ⟨some (chars "0"), none, some (chars "0"), none⟩
  | some p =>
    match extractAt fields 3 with
    | none => ⟨some p, none, some (chars "0"), none⟩
    | some v => ⟨some p, none, some v, none⟩

/-- The `len(fields) ≥ 7` branch of the row parser, with the same abort
semantics: an exception skips all later cells of the row, after which the
handler fills only missing `power`/`volt` with `"0"` (never `freq` or
`temp`). -/
def parseLongRow (fields : List Str) : PanelRecord :=
  match extractAt fields 2 with
  | none => ⟨some (chars "0"), none, some (chars "0"), none⟩
  | some p =>
    match extractAt fields 3 with
    | none => ⟨some p, none, some (chars "0"), none⟩
    | some f =>
      match extractAt fields 4 with
      | none => ⟨some p, some f, some (chars "0"), none⟩
      | some v =>
        match extractAt fields 5 with
        | none => ⟨some p, some f, some v, none⟩
        | some t => ⟨some p, some f, some v, some t⟩

/-- Layout selection of the source: short layout for fewer than 7 cell
segments, long layout otherwise. -/
def parsePanelRow (fields : List Str) : PanelRecord :=
  if fields.length < 7 then parseShortRow fields else parseLongRow fields

/-- The panels portion of the scraped dictionary, in insertion order with
distinct keys (Python `dict` semantics). -/
abbrev Panels := List (Str × PanelRecord)

/-- Is the key already present? -/
def keyMem (m : Panels) (k : Str) : Bool :=
  m.any (fun p => decide (p.1 = k))

/-- `data[panel_id] = record`: overwrite in place when the key exists,
append otherwise — exactly Python `dict` assignment. -/
def insertPanel (m : Panels) (k : Str) (v : PanelRecord) : Panels :=
  if keyMem m k then m.map (fun p => if p.1 = k then (k, v) else p)
  else m ++ [(k, v)]

/-- `re.split('<td', line)`: the cell segments of one detail-page row. -/
def rowFields (row : Str) : List Str := splitOnStr (chars "<td") row

/-- `fields[1][1:15]`: the identifier slice of the first data cell. -/
def rowKey (row : Str) : Str := pySlice1to15 ((rowFields row).getD 1 [])

/-- Process one detail-page row into the accumulated panels map: rows with
fewer than 2 cell segments are skipped. -/
def parseRowInto (m : Panels) (row : Str) : Panels :=
  if (rowFields row).length < 2 then m
  else insertPanel m (rowKey row) (parsePanelRow (rowFields row))

/-- Fold all detail-page rows (the segments after the first `'<tr '`)
into a panels map. -/
def parseDetailRows (rows : List Str) : Panels :=
  rows.foldl parseRowInto []

/-- The detail-page rows of a page: split on `'<tr '`, drop the segment
before the first row marker. -/
def detailRows (page : Str) : List Str :=
  (splitOnStr (chars "<tr ") page).drop 1

/-- Whole detail-page parse. -/
def parseDetailPage (page : Str) : Panels :=
  parseDetailRows (detailRows page)

/-!  ## Overview page (`/`)

Split on the exact token `'<tr>'`; with at least 13 rows, five fixed row
positions are decoded inside a single `try` block writing directly into
the result dictionary, so an exception keeps earlier assignments and
drops the later ones.
-/

/-- The five system-level fields of the scraped dictionary, `none` when
never assigned. -/
structure SystemFields where
  lifetime : Option Str
  state : Option Str
  day : Option Str
  online : Option Str
  signal : Option Str
deriving Repr, DecidableEq

/-- No system field assigned. -/
def emptySF : SystemFields := ⟨none, none, none, none, none⟩

/-- `re.split('<td>', line)[1].split()[0]` — `none` models an
`IndexError`. -/
def statTok (line : Str) : Option Str :=
  match (splitOnStr (chars "<td>") line).get? 1 with
  | none => none
  | some t => (pyWsSplit t).get? 0

/-- `re.split('<td>', line)[1].split('<')[0]` — `none` models the
`IndexError` of the `[1]` access; the `.split('<')[0]` part is total. -/
def statTokAngle (line : Str) : Option Str :=
  match (splitOnStr (chars "<td>") line).get? 1 with
  | none => none
  | some t => some ((splitOnStr (chars "<") t).headD [])

/-- The five sequential assignments of the statistics `try` block.  An
exception at any stage keeps the assignments already made and skips the
rest (the `except` handler only logs). -/
def statsFrom (lines : List Str) : SystemFields :=
  match statTok (lines.getD 2 []) with
  | none => emptySF
  | some lt =>
    match statTok (lines.getD 3 []) with
    | none => ⟨some lt, none, none, none, none⟩
    | some st =>
      match statTok (lines.getD 4 []) with
      | none => ⟨some lt, some st, none, none, none⟩
      | some dy =>
        match statTokAngle (lines.getD 7 []) with
        | none => ⟨some lt, some st, some dy, none, none⟩
        | some onl =>
          match statTokAngle (lines.getD 12 []) with
          | none => ⟨some lt, some st, some dy, some onl, none⟩
          | some sg => ⟨some lt, some st, some dy, some onl, some sg⟩

/-- The overview-page rows: `re.split('<tr>', page)`. -/
def statLines (page : Str) : List Str := splitOnStr (chars "<tr>") page

/-- Whole overview-page parse: `if len(lines) >= 13` guards the block;
otherwise only a warning is logged and nothing is assigned. -/
def parseStats (page : Str) : SystemFields :=
  if 13 ≤ (statLines page).length then statsFrom (statLines page) else emptySF

/-!  ## Snapshot merge, defaults and the coordinator cycle -/

/-- The scraped dictionary of one cycle, with the system fields and the
panel records separated (the source keeps both in one `dict`). -/
structure Snapshot where
  sys : SystemFields
  panels : Panels
deriving Repr, DecidableEq

/-- Python truthiness `not data`: no key was ever assigned. -/
def emptyCandidate (s : Snapshot) : Bool :=
  decide (s.sys = emptySF) && decide (s.panels = [])

/-- Outcome of fetching one page: its body, or a `urllib.error.URLError`. -/
inductive FetchResult where
  | ok (body : Str)
  | connErr
deriving Repr, DecidableEq

/-- Did this fetch raise `URLError`? -/
def isConnErr : FetchResult → Bool
  | .ok _ => false
  | .connErr => true

/-- `connection_error` is set when either page fetch raised `URLError`. -/
def hasConnErr (d o : FetchResult) : Bool := isConnErr d || isConnErr o

/-- Panels contributed by the detail-page attempt (nothing on a
connectivity error — the whole section is skipped). -/
def detailPanels : FetchResult → Panels
  | .ok b => parseDetailPage b
  | .connErr => []

/-- System fields contributed by the overview-page attempt. -/
def overviewSys : FetchResult → SystemFields
  | .ok b => parseStats b
  | .connErr => emptySF

/-- The merged candidate dictionary built by one `fetch_data` run before
its final policy checks. -/
def candidate (d o : FetchResult) : Snapshot :=
  ⟨overviewSys o, detailPanels d⟩

/-- The documented default offline dictionary. -/
def defaultData : Snapshot :=
  ⟨⟨some (chars "0"), some (chars "0"), some (chars "0"), some (chars "0"),
    some (chars "0")⟩, []⟩

/-- Result of one `fetch_data` call: a dictionary, or the re-raised
connection error. -/
inductive FetchOutcome where
  | ok (s : Snapshot)
  | connRaise
deriving Repr, DecidableEq

/-- `fetch_data`: raise the stored connection error when one occurred and
the dictionary is empty; substitute the documented defaults when the
dictionary is empty without a connection error; otherwise return the
dictionary. -/
def fetch_data (d o : FetchResult) : FetchOutcome :=
  if hasConnErr d o && emptyCandidate (candidate d o) then .connRaise
  else if emptyCandidate (candidate d o) then .ok defaultData
  else .ok (candidate d o)

/-- What one coordinator poll cycle publishes. -/
inductive CycleResult where
  | published (s : Snapshot)
  | updateFailed
deriving Repr, DecidableEq

/-- `_async_update_data`: on an exception from `fetch_data`, return the
previous `self.data` when it is truthy, else raise `UpdateFailed`. -/
def asyncUpdateData (prev : Option Snapshot) (d o : FetchResult) : CycleResult :=
  match fetch_data d o with
  | .ok s => .published s
  | .connRaise =>
    match prev with
    | some p => if emptyCandidate p then .updateFailed else .published p
    | none => .updateFailed

/-!  ## Concrete inputs used by counterexamples and witnesses -/

/-- A seven-segment detail row whose `freq` cell (`fields[3]`) has no `'>'`
while the `volt` cell (`fields[4]`) is well-formed. -/
def abortRow : List Str :=
  [chars "", chars "id", chars ">10 ", chars "nofreq", chars ">230 ",
   chars ">45 ", chars ""]

/-- A four-segment detail row whose `power` cell token is `"-1.5"`. -/
def dashRow : List Str :=
  [chars "", chars "idcell", chars ">-1.5 ", chars ">2 "]

/-- The crafted round-trip row of the specification, verbatim. -/
def craftedRow : Str :=
  chars "...<td...>123.4<...><td...>50.0<...><td...>230.1<...><td...>45.2..."

/-- An overview page with 13 rows in which rows 2 and 3 decode but row 4
has no `'<td>'` cell marker. -/
def statsPartialPage : Str :=
  chars "junk<tr>x<tr><td>77 q<tr><td>1 q<tr>nope<tr>x<tr>x<tr>x<tr>x<tr>x<tr>x<tr>x<tr>x"

/-- A detail page with two well-formed rows carrying the same
identifier slice. -/
def pageDup : Str :=
  chars "z<tr x<td AAAAAAAAAAAAAAA<td >1 <tr x<td AAAAAAAAAAAAAAA<td >2 "

/-- A detail page with two well-formed rows carrying distinct
identifier slices. -/
def pageTwo : Str :=
  chars "z<tr x<td AAAAAAAAAAAAAAA<td >1 <tr x<td BBBBBBBBBBBBBBB<td >2 "

/-- A detail page with a single two-segment row. -/
def pageOne : Str := chars "<tr <td 123<td >5 "

end Zonnepanelen

/-!  # Theorems -/

namespace Zonnepanelen

/-- A successful `fetch_data` run never returns an empty dictionary: either
the candidate was non-empty, or the documented defaults were substituted. -/
theorem fetch_data_ok_nonempty (d o : FetchResult) (s : Snapshot)
    (h : fetch_data d o = .ok s) : emptyCandidate s = false := by
  unfold fetch_data at h
  by_cases h1 : (hasConnErr d o && emptyCandidate (candidate d o)) = true
  · rw [if_pos h1] at h
    exact absurd h (by simp)
  · rw [if_neg h1] at h
    by_cases h2 : emptyCandidate (candidate d o) = true
    · rw [if_pos h2] at h
      have hs : defaultData = s := by injection h
      rw [← hs]
      decide
    · rw [if_neg h2] at h
      have hs : candidate d o = s := by injection h
      rw [← hs]
      exact Bool.eq_false_iff.mpr h2

/-- Claim C1: in a cycle where a fetch raised a connectivity error and the
candidate dictionary is empty, the coordinator republishes the previous
successful snapshot unchanged when one exists, and raises `UpdateFailed`
when none does. -/
theorem cycle_conn_fallback (d0 o0 d o : FetchResult) (p : Snapshot)
    (hprev : fetch_data d0 o0 = .ok p)
    (hconn : hasConnErr d o = true)
    (hempty : emptyCandidate (candidate d o) = true) :
    asyncUpdateData (some p) d o = .published p ∧
    asyncUpdateData none d o = .updateFailed := by
  have hraise : fetch_data d o = .connRaise := by
    unfold fetch_data
    rw [if_pos (by rw [hconn, hempty]; rfl)]
  have hp := fetch_data_ok_nonempty d0 o0 p hprev
  constructor
  · unfold asyncUpdateData
    rw [hraise]
    simp [hp]
  · unfold asyncUpdateData
    rw [hraise]

/-- Claim C1 witness: a first cycle on empty pages publishes the default
snapshot; the next cycle with both fetches failing republishes it, while
the same failing cycle with no history raises `UpdateFailed`. -/
theorem cycle_conn_fallback_witness :
    asyncUpdateData (some defaultData) .connErr .connErr = .published defaultData ∧
    asyncUpdateData none .connErr .connErr = .updateFailed :=
  cycle_conn_fallback (.ok []) (.ok []) .connErr .connErr defaultData
    (by decide) (by decide) (by decide)

/-- Claim C6: with no connectivity error and a completely empty candidate,
`fetch_data` succeeds with the documented default snapshot
`state="0", lifetime="0", day="0", online="0", signal="0"` and no panels. -/
theorem empty_candidate_defaults (d o : FetchResult)
    (hc : hasConnErr d o = false)
    (he : emptyCandidate (candidate d o) = true) :
    fetch_data d o = .ok defaultData ∧
    defaultData = ⟨⟨some (chars "0"), some (chars "0"), some (chars "0"),
      some (chars "0"), some (chars "0")⟩, []⟩ := by
  constructor
  · unfold fetch_data
    rw [hc]
    simp [he]
  · rfl

/-- Claim C6 witness: two fetched pages with no recognizable rows at all
produce the default snapshot. -/
theorem empty_candidate_defaults_witness :
    fetch_data (.ok []) (.ok []) = .ok defaultData :=
  (empty_candidate_defaults (.ok []) (.ok []) (by decide) (by decide)).1

/-- Claim C9: an overview page splitting into fewer than 13 rows
contributes no system field and raises nothing. -/
theorem stats_short_page_no_fields (page : Str)
    (h : (statLines page).length < 13) :
    parseStats page = emptySF := by
  unfold parseStats
  rw [if_neg (by omega)]

/-- Claim C9 witness: a one-row overview page yields no system fields. -/
theorem stats_short_page_no_fields_witness :
    parseStats (chars "hello") = emptySF :=
  stats_short_page_no_fields (chars "hello") (by decide)

/-- Claim C8 counterexample: the crafted round-trip row of the
specification does not produce the claimed four-field record — its split
has only five cell segments, so the short layout applies. -/
theorem crafted_row_roundtrip_ce :
    parsePanelRow (rowFields craftedRow) ≠
      ⟨some (chars "123.4"), some (chars "50.0"), some (chars "230.1"),
       some (chars "45.2")⟩ := by
  decide

/-- Claim C8 (amended): the crafted row splits into five cell segments, so
the short layout applies and the parsed record is
`power="50.0<..."` and `volt="230.1<..."` with no `freq` or `temp`. -/
theorem crafted_row_roundtrip :
    (rowFields craftedRow).length = 5 ∧
    parsePanelRow (rowFields craftedRow) =
      ⟨some (chars "50.0<..."), none, some (chars "230.1<..."), none⟩ := by
  decide

/-- Claim C7 counterexample: a power cell whose token is `"-1.5"` is
stored as `"01.5"`, not as `"0"`. -/
theorem dash_stores_zero_ce :
    extractToken (chars ">-1.5 ") = some (chars "-1.5") ∧
    (parsePanelRow dashRow).power = some (chars "01.5") ∧
    (parsePanelRow dashRow).power ≠ some (chars "0") := by
  decide

/-- Claim C7 (amended): a cell token beginning with a dash has that
leading dash replaced by a zero character; in particular a lone sentinel
dash yields `"0"`. -/
theorem dash_leading_replaced (cell : Str) (rest : Str)
    (h : extractToken cell = some ('-' :: rest)) :
    extractField cell = some ('0' :: rest) := by
  unfold extractField
  rw [h]
  simp [replaceFirstDash]

/-- Claim C7 witness: a cell holding a lone sentinel dash parses to `"0"`,
not `"-"` and not the empty string. -/
theorem dash_leading_replaced_witness :
    extractField (chars ">- ") = some (chars "0") :=
  dash_leading_replaced (chars ">- ") [] (by decide)

/-- Claim C2: a retained row with fewer than 7 cell segments takes the
short layout — `cell[2] → power`, `cell[3] → volt`, `freq` and `temp`
never assigned — while a row with 7 or more takes the long layout
`cell[2] → power`, `cell[3] → freq`, `cell[4] → volt`, `cell[5] → temp`. -/
theorem panel_row_layout (fields : List Str) (_hkept : 2 ≤ fields.length) :
    (fields.length < 7 →
      (parsePanelRow fields).freq = none ∧ (parsePanelRow fields).temp = none ∧
      ∀ p v : Str, extractAt fields 2 = some p → extractAt fields 3 = some v →
        parsePanelRow fields = ⟨some p, none, some v, none⟩) ∧
    (7 ≤ fields.length →
      ∀ p f v t : Str, extractAt fields 2 = some p → extractAt fields 3 = some f →
        extractAt fields 4 = some v → extractAt fields 5 = some t →
        parsePanelRow fields = ⟨some p, some f, some v, some t⟩) := by
  constructor
  · intro h7
    unfold parsePanelRow
    rw [if_pos h7]
    refine ⟨?_, ?_, ?_⟩
    · unfold parseShortRow
      cases hA : extractAt fields 2 with
      | none => simp
      | some p => cases hB : extractAt fields 3 <;> simp
    · unfold parseShortRow
      cases hA : extractAt fields 2 with
      | none => simp
      | some p => cases hB : extractAt fields 3 <;> simp
    · intro p v hp hv
      unfold parseShortRow
      rw [hp, hv]
  · intro h7 p f v t hp hf hv ht
    unfold parsePanelRow
    rw [if_neg (by omega)]
    unfold parseLongRow
    rw [hp, hf, hv, ht]

/-- Claim C2 witness: the boundary rows — exactly 6 segments takes the
short layout, exactly 7 segments takes the long layout. -/
theorem panel_row_layout_witness :
    parsePanelRow [chars "", chars "x", chars ">1 ", chars ">2 ", chars ">3 ",
      chars ">4 "] = ⟨some (chars "1"), none, some (chars "2"), none⟩ ∧
    parsePanelRow [chars "", chars "x", chars ">1 ", chars ">2 ", chars ">3 ",
      chars ">4 ", chars ""] =
      ⟨some (chars "1"), some (chars "2"), some (chars "3"), some (chars "4")⟩ :=
  ⟨((panel_row_layout [chars "", chars "x", chars ">1 ", chars ">2 ",
      chars ">3 ", chars ">4 "] (by decide)).1 (by decide)).2.2
      (chars "1") (chars "2") (by decide) (by decide),
   (panel_row_layout [chars "", chars "x", chars ">1 ", chars ">2 ",
      chars ">3 ", chars ">4 ", chars ""] (by decide)).2 (by decide)
      (chars "1") (chars "2") (chars "3") (chars "4")
      (by decide) (by decide) (by decide) (by decide)⟩

/-- Claim C4 counterexample: in `abortRow` the `volt` cell (`fields[4]`)
is extractable as `"230"`, yet after the `freq` cell fails the record
holds `volt="0"` and `freq` is absent rather than `"0"` — field failures
are not isolated to the failing field. -/
theorem field_failure_independence_ce :
    abortRow.length = 7 ∧
    extractAt abortRow 3 = none ∧
    extractAt abortRow 4 = some (chars "230") ∧
    (parsePanelRow abortRow).volt = some (chars "0") ∧
    (parsePanelRow abortRow).volt ≠ extractAt abortRow 4 ∧
    (parsePanelRow abortRow).freq = none := by
  decide

/-- Claim C4 (amended): a per-field extraction failure aborts the
remaining field extractions of the row; the handler then fills only
missing `power`/`volt` with `"0"` (never `freq`/`temp`), and the row's
identifier still registers with whichever fields were reached. -/
theorem field_failure_aborts_row (fields : List Str) :
    (extractAt fields 2 = none →
      parsePanelRow fields = ⟨some (chars "0"), none, some (chars "0"), none⟩) ∧
    (∀ p : Str, extractAt fields 2 = some p → extractAt fields 3 = none →
      parsePanelRow fields = ⟨some p, none, some (chars "0"), none⟩) ∧
    (7 ≤ fields.length →
      ∀ p f : Str, extractAt fields 2 = some p → extractAt fields 3 = some f →
        extractAt fields 4 = none →
        parsePanelRow fields = ⟨some p, some f, some (chars "0"), none⟩) ∧
    (7 ≤ fields.length →
      ∀ p f v : Str, extractAt fields 2 = some p → extractAt fields 3 = some f →
        extractAt fields 4 = some v → extractAt fields 5 = none →
        parsePanelRow fields = ⟨some p, some f, some v, none⟩) := by
  refine ⟨?_, ?_, ?_, ?_⟩
  · intro h2
    unfold parsePanelRow parseShortRow parseLongRow
    by_cases h : fields.length < 7
    · rw [if_pos h, h2]
    · rw [if_neg h, h2]
  · intro p hp h3
    unfold parsePanelRow parseShortRow parseLongRow
    by_cases h : fields.length < 7
    · rw [if_pos h, hp, h3]
    · rw [if_neg h, hp, h3]
  · intro h7 p f hp hf h4
    unfold parsePanelRow parseLongRow
    rw [if_neg (by omega), hp, hf, h4]
  · intro h7 p f v hp hf hv h5
    unfold parsePanelRow parseLongRow
    rw [if_neg (by omega), hp, hf, hv, h5]

/-- Claim C4 witness: the abort behaviour evaluated on `abortRow`. -/
theorem field_failure_aborts_row_witness :
    parsePanelRow abortRow = ⟨some (chars "10"), none, some (chars "0"), none⟩ :=
  (field_failure_aborts_row abortRow).2.1 (chars "10") (by decide) (by decide)

/-- The five assignments of the statistics block always form a chain in
assignment order: a later field can only be present when every earlier
one is. -/
theorem statsFrom_chain (lines : List Str) :
    ((statsFrom lines).state.isSome = true → (statsFrom lines).lifetime.isSome = true) ∧
    ((statsFrom lines).day.isSome = true → (statsFrom lines).state.isSome = true) ∧
    ((statsFrom lines).online.isSome = true → (statsFrom lines).day.isSome = true) ∧
    ((statsFrom lines).signal.isSome = true → (statsFrom lines).online.isSome = true) := by
  unfold statsFrom
  cases h1 : statTok (lines.getD 2 []) with
  | none => simp [emptySF]
  | some lt =>
    cases h2 : statTok (lines.getD 3 []) with
    | none => simp
    | some st =>
      cases h3 : statTok (lines.getD 4 []) with
      | none => simp
      | some dy =>
        cases h4 : statTokAngle (lines.getD 7 []) with
        | none => simp
        | some onl => cases h5 : statTokAngle (lines.getD 12 []) <;> simp

/-- When the `lifetime` extraction of row 2 succeeds, its value is kept no
matter which later assignment fails. -/
theorem statsFrom_lifetime (lines : List Str) (lt : Str)
    (h : statTok (lines.getD 2 []) = some lt) :
    (statsFrom lines).lifetime = some lt := by
  unfold statsFrom
  rw [h]
  cases h2 : statTok (lines.getD 3 []) with
  | none => rfl
  | some st =>
    cases h3 : statTok (lines.getD 4 []) with
    | none => rfl
    | some dy =>
      cases h4 : statTokAngle (lines.getD 7 []) with
      | none => rfl
      | some onl => cases h5 : statTokAngle (lines.getD 12 []) <;> rfl

/-- Claim C5 counterexample: on `statsPartialPage` (13 rows, row 4
unparsable) the published fields are `lifetime="77"` and `state="1"` with
the other three absent — neither all five system fields nor none. -/
theorem stats_all_or_nothing_ce :
    13 ≤ (statLines statsPartialPage).length ∧
    parseStats statsPartialPage =
      ⟨some (chars "77"), some (chars "1"), none, none, none⟩ ∧
    (parseStats statsPartialPage).lifetime.isSome = true ∧
    (parseStats statsPartialPage).signal.isSome = false := by
  decide

/-- Claim C5 (amended): the statistics parse is not all-or-nothing:
assignments made before the exception are retained, so the published
system fields always form a chain in assignment order
(`lifetime`, `state`, `day`, `online`, `signal`), and a `lifetime` value
extracted before the failure keeps its extracted value. -/
theorem stats_partial_retained (page : Str) :
    ((parseStats page).state.isSome = true → (parseStats page).lifetime.isSome = true) ∧
    ((parseStats page).day.isSome = true → (parseStats page).state.isSome = true) ∧
    ((parseStats page).online.isSome = true → (parseStats page).day.isSome = true) ∧
    ((parseStats page).signal.isSome = true → (parseStats page).online.isSome = true) ∧
    (13 ≤ (statLines page).length →
      ∀ lt : Str, statTok ((statLines page).getD 2 []) = some lt →
        (parseStats page).lifetime = some lt) := by
  unfold parseStats
  by_cases h : 13 ≤ (statLines page).length
  · rw [if_pos h]
    exact ⟨(statsFrom_chain _).1, (statsFrom_chain _).2.1,
           (statsFrom_chain _).2.2.1, (statsFrom_chain _).2.2.2,
           fun _ lt hlt => statsFrom_lifetime _ lt hlt⟩
  · rw [if_neg h]
    exact ⟨by simp [emptySF], by simp [emptySF], by simp [emptySF],
           by simp [emptySF], fun h13 => absurd h13 h⟩

/-- Claim C5 witness: on `statsPartialPage`, the `lifetime` value
extracted before the row-4 failure is retained. -/
theorem stats_partial_retained_witness :
    (parseStats statsPartialPage).lifetime = some (chars "77") :=
  (stats_partial_retained statsPartialPage).2.2.2.2 (by decide) (chars "77")
    (by decide)

/-- Inserting under a fresh key appends the binding. -/
theorem insertPanel_of_not_mem (m : Panels) (k : Str) (v : PanelRecord)
    (h : k ∉ m.map Prod.fst) : insertPanel m k v = m ++ [(k, v)] := by
  have hk : keyMem m k = false := by
    rw [keyMem]
    rw [List.any_eq_false]
    intro p hp
    simp only [decide_eq_true_eq]
    intro he
    exact h (List.mem_map.mpr ⟨p, hp, he⟩)
  rw [insertPanel, hk]
  simp

/-- Membership after a dictionary assignment: the binding was already
there, or it is the assigned one. -/
theorem mem_insertPanel {m : Panels} {k : Str} {v : PanelRecord}
    {kr : Str × PanelRecord} (h : kr ∈ insertPanel m k v) :
    kr ∈ m ∨ kr = (k, v) := by
  unfold insertPanel at h
  by_cases hk : keyMem m k = true
  · rw [if_pos hk] at h
    rcases List.mem_map.mp h with ⟨p, hp, he⟩
    by_cases hpk : p.1 = k
    · rw [if_pos hpk] at he
      exact Or.inr he.symm
    · rw [if_neg hpk] at he
      exact Or.inl (he ▸ hp)
  · rw [if_neg hk] at h
    rcases List.mem_append.mp h with h1 | h2
    · exact Or.inl h1
    · exact Or.inr (by simpa using h2)

/-- Every binding produced by folding rows into a panels map either was in
the starting map or is the parse of some row's cell segments. -/
theorem mem_foldl_parseRowInto :
    ∀ (rows : List Str) (m : Panels) (kr : Str × PanelRecord),
      kr ∈ rows.foldl parseRowInto m →
      kr ∈ m ∨ ∃ fields : List Str, kr.2 = parsePanelRow fields := by
  intro rows
  induction rows with
  | nil =>
    intro m kr h
    exact Or.inl (by simpa using h)
  | cons row rest ih =>
    intro m kr h
    rw [List.foldl_cons] at h
    rcases ih _ kr h with hm | hex
    · unfold parseRowInto at hm
      by_cases hlen : (rowFields row).length < 2
      · rw [if_pos hlen] at hm
        exact Or.inl hm
      · rw [if_neg hlen] at hm
        rcases mem_insertPanel hm with h1 | h2
        · exact Or.inl h1
        · exact Or.inr ⟨rowFields row, by rw [h2]⟩
    · exact Or.inr hex

/-- Both branches of the row parser always assign `power` and `volt`:
either from a successful extraction or from the handler's defaults. -/
theorem parsePanelRow_pv (fields : List Str) :
    (parsePanelRow fields).power.isSome = true ∧
    (parsePanelRow fields).volt.isSome = true := by
  unfold parsePanelRow parseShortRow parseLongRow
  by_cases h : fields.length < 7
  · rw [if_pos h]
    cases h2 : extractAt fields 2 with
    | none => simp
    | some p => cases h3 : extractAt fields 3 <;> simp
  · rw [if_neg h]
    cases h2 : extractAt fields 2 with
    | none => simp
    | some p =>
      cases h3 : extractAt fields 3 with
      | none => simp
      | some f =>
        cases h4 : extractAt fields 4 with
        | none => simp
        | some v => cases h5 : extractAt fields 5 <;> simp

/-- Claim C10: every panel record present in the detail-page output
contains both a `power` and a `volt` value, whatever the layout and
whatever extraction failures occurred. -/
theorem panel_records_have_power_volt (page : Str) (k : Str) (r : PanelRecord)
    (h : (k, r) ∈ parseDetailPage page) :
    r.power.isSome = true ∧ r.volt.isSome = true := by
  unfold parseDetailPage parseDetailRows at h
  rcases mem_foldl_parseRowInto (detailRows page) [] (k, r) h with hm | ⟨fields, hf⟩
  · exact absurd hm (by simp)
  · rw [show r = parsePanelRow fields from hf]
    exact parsePanelRow_pv fields

/-- Claim C10 witness: the single record of `pageOne` (whose `volt` cell
is missing and defaulted) still carries both keys. -/
theorem panel_records_have_power_volt_witness :
    (⟨some (chars "5"), none, some (chars "0"), none⟩ : PanelRecord).power.isSome = true ∧
    (⟨some (chars "5"), none, some (chars "0"), none⟩ : PanelRecord).volt.isSome = true :=
  panel_records_have_power_volt pageOne (chars "123")
    ⟨some (chars "5"), none, some (chars "0"), none⟩ (by decide)

/-- Folding well-formed rows with fresh, pairwise-distinct keys appends
one binding per row, keyed by the row's identifier slice. -/
theorem foldl_keys_append :
    ∀ (rows : List Str) (m : Panels),
      (∀ row ∈ rows, 2 ≤ (rowFields row).length) →
      (∀ row ∈ rows, rowKey row ∉ m.map Prod.fst) →
      (rows.map rowKey).Nodup →
      (rows.foldl parseRowInto m).map Prod.fst = m.map Prod.fst ++ rows.map rowKey := by
  intro rows
  induction rows with
  | nil =>
    intro m _ _ _
    simp
  | cons row rest ih =>
    intro m hwf hnm hnd
    rw [List.foldl_cons]
    have hgt : ¬ (rowFields row).length < 2 := by
      have := hwf row (List.mem_cons_self row rest)
      omega
    have hkey : rowKey row ∉ m.map Prod.fst := hnm row (List.mem_cons_self row rest)
    have hstep : parseRowInto m row =
        m ++ [(rowKey row, parsePanelRow (rowFields row))] := by
      unfold parseRowInto
      rw [if_neg hgt, insertPanel_of_not_mem m _ _ hkey]
    have hnd' : (rowKey row :: rest.map rowKey).Nodup := by
      rw [← List.map_cons]
      exact hnd
    have hnodup := List.nodup_cons.mp hnd'
    have hres := ih (m ++ [(rowKey row, parsePanelRow (rowFields row))])
      (fun r hr => hwf r (List.mem_cons_of_mem _ hr))
      (fun r hr hmem => by
        rw [List.map_append] at hmem
        rcases List.mem_append.mp hmem with h1 | h2
        · exact hnm r (List.mem_cons_of_mem _ hr) h1
        · have heq : rowKey r = rowKey row := by simpa using h2
          exact hnodup.1 (by rw [← heq]; exact List.mem_map_of_mem rowKey hr))
      hnodup.2
    rw [hstep, hres]
    simp

/-- Claim C3 counterexample: `pageDup` holds two well-formed rows whose
identifier slices coincide, and the parse yields one record, not two. -/
theorem detail_records_count_ce :
    (∀ row ∈ detailRows pageDup, 2 ≤ (rowFields row).length) ∧
    (detailRows pageDup).length = 2 ∧
    (parseDetailPage pageDup).length = 1 := by
  decide

/-- Claim C3 (amended): for markup whose N well-formed rows have pairwise
distinct identifier slices, the parse yields exactly N records, each keyed
by the slice of positions 1 through 14 of its first data cell (duplicate
slices instead overwrite, last row wins). -/
theorem detail_records_count (page : Str)
    (hwf : ∀ row ∈ detailRows page, 2 ≤ (rowFields row).length)
    (hnd : ((detailRows page).map rowKey).Nodup) :
    (parseDetailPage page).map Prod.fst = (detailRows page).map rowKey ∧
    (parseDetailPage page).length = (detailRows page).length := by
  have h := foldl_keys_append (detailRows page) [] hwf (by simp) hnd
  have hmap : (parseDetailPage page).map Prod.fst = (detailRows page).map rowKey := by
    unfold parseDetailPage parseDetailRows
    simpa using h
  refine ⟨hmap, ?_⟩
  calc (parseDetailPage page).length
      = ((parseDetailPage page).map Prod.fst).length := (List.length_map _ _).symm
    _ = ((detailRows page).map rowKey).length := by rw [hmap]
    _ = (detailRows page).length := List.length_map _ _

/-- Claim C3 witness: `pageTwo` has two well-formed rows with distinct
identifier slices and parses to exactly two records. -/
theorem detail_records_count_witness :
    (parseDetailPage pageTwo).length = 2 :=
  ((detail_records_count pageTwo (by decide) (by decide)).2).trans (by decide)

end Zonnepanelen
